import Mathlib

/-!
Verification of the battle core of the pokemon-challenge-backend repository.

The development shallowly embeds the battle resolution and transactional
mutation protocol:
  * `pickWinnerWeighted` from src/domain/battle/pick-winner-weighted.ts
  * `setupBattlePokemon` from src/domain/use-cases (the battle use case)
  * the Postgres repository row operations from
    src/infra/repos/postgres (loadById, updateNivel, deleteById, create)
  * `BattlePokemonController` from
    src/application/controllers/battle/battle-pokemon.ts
  * `DbTransactionController` from src/application/decorators

JavaScript numbers are modelled as exact rationals for probabilities and as
integers for ids and levels.  The JS expression `r < nivelA / (nivelA + nivelB)`
with a zero denominator evaluates to `r < NaN`, which is false; the rational
embedding uses the Lean convention `q / 0 = 0`, and for `0 <= r` the comparison
`r < 0` is likewise false, so the two semantics pick the same winner on every
input considered here.  Repository writes are recorded as an explicit trace of
write operations so that claims about which mutations are persisted can be
stated directly.
-/

/-- The closed set of allowed pokemon kinds, from the `tipo_valido` check
constraint of the `pokemons` table schema. -/
inductive Tipo
  | pikachu
  | charizard
  | mewtwo
deriving DecidableEq, Repr

/-- The PokemonModel record: id, tipo, treinador, nivel, mirroring the
domain contract and the `pokemons` table columns. -/
structure PokemonModel where
  id : Int
  tipo : Tipo
  treinador : String
  nivel : Int
deriving DecidableEq, Repr

/-- Result of the winner selection function: the `{winner, loser}` pair. -/
structure BattleResult where
  winner : PokemonModel
  loser : PokemonModel
deriving DecidableEq, Repr

/-- The probability of pokemon A winning, as computed by the source:
`pokemonA.nivel / (pokemonA.nivel + pokemonB.nivel)`.  Rational division by
zero yields 0 here, matching the JS outcome of the comparison with NaN for
nonnegative random draws (see the module docstring). -/
def pokemonAProbability (pokemonA pokemonB : PokemonModel) : ℚ :=
  (pokemonA.nivel : ℚ) / ((pokemonA.nivel : ℚ) + (pokemonB.nivel : ℚ))

/-- `pickWinnerWeighted` from src/domain/battle/pick-winner-weighted.ts.
The ambient `Math.random()` draw is made an explicit parameter
`randomValue`; the production caller supplies a uniform value in `[0, 1)`. -/
def pickWinnerWeighted (pokemonA pokemonB : PokemonModel) (randomValue : ℚ) :
    BattleResult :=
  if randomValue < pokemonAProbability pokemonA pokemonB then
    { winner := pokemonA, loser := pokemonB }
  else
    { winner := pokemonB, loser := pokemonA }

/-- C1: for combatants A and B and a random draw r in [0, 1), the winner is
A with loser B exactly when `r < pA` where `pA = levelA / (levelA + levelB)`;
the returned pair is exactly the two original input records unmodified; and
when the levels are equal (and positive, per the documented implicit
precondition that at least one level is strictly positive) `pA = 1/2`, with
no deterministic tie-break. -/
theorem pickWinnerWeighted_weighted_choice (A B : PokemonModel) (r : ℚ)
    (h0 : 0 ≤ r) (h1 : r < 1) :
    (r < pokemonAProbability A B →
      pickWinnerWeighted A B r = { winner := A, loser := B }) ∧
    (¬ r < pokemonAProbability A B →
      pickWinnerWeighted A B r = { winner := B, loser := A }) ∧
    ((pickWinnerWeighted A B r).winner = A ∧ (pickWinnerWeighted A B r).loser = B ∨
      (pickWinnerWeighted A B r).winner = B ∧ (pickWinnerWeighted A B r).loser = A) ∧
    (A.nivel = B.nivel → 0 < A.nivel → pokemonAProbability A B = 1 / 2) := by
  refine ⟨fun h => ?_, fun h => ?_, ?_, fun heq hpos => ?_⟩
  · simp [pickWinnerWeighted, h]
  · simp [pickWinnerWeighted, h]
  · by_cases h : r < pokemonAProbability A B
    · exact Or.inl (by simp [pickWinnerWeighted, h])
    · exact Or.inr (by simp [pickWinnerWeighted, h])
  · have hpos' : (0 : ℚ) < (A.nivel : ℚ) := by exact_mod_cast hpos
    rw [pokemonAProbability, ← heq, div_eq_iff (by linarith)]
    ring

/-- Witness for C1 at A with level 3, B with level 1 and r = 1/2. -/
theorem pickWinnerWeighted_weighted_choice_witness :
    (0 : ℚ) ≤ 1 / 2 ∧ (1 / 2 : ℚ) < 1 ∧
    (((1 : ℚ) / 2 < pokemonAProbability
        { id := 1, tipo := Tipo.pikachu, treinador := "Ash", nivel := 3 }
        { id := 2, tipo := Tipo.charizard, treinador := "Red", nivel := 1 } →
      pickWinnerWeighted
        { id := 1, tipo := Tipo.pikachu, treinador := "Ash", nivel := 3 }
        { id := 2, tipo := Tipo.charizard, treinador := "Red", nivel := 1 } (1 / 2) =
        { winner := { id := 1, tipo := Tipo.pikachu, treinador := "Ash", nivel := 3 },
          loser := { id := 2, tipo := Tipo.charizard, treinador := "Red", nivel := 1 } }) ∧
    (¬ (1 : ℚ) / 2 < pokemonAProbability
        { id := 1, tipo := Tipo.pikachu, treinador := "Ash", nivel := 3 }
        { id := 2, tipo := Tipo.charizard, treinador := "Red", nivel := 1 } →
      pickWinnerWeighted
        { id := 1, tipo := Tipo.pikachu, treinador := "Ash", nivel := 3 }
        { id := 2, tipo := Tipo.charizard, treinador := "Red", nivel := 1 } (1 / 2) =
        { winner := { id := 2, tipo := Tipo.charizard, treinador := "Red", nivel := 1 },
          loser := { id := 1, tipo := Tipo.pikachu, treinador := "Ash", nivel := 3 } }) ∧
    ((pickWinnerWeighted
        { id := 1, tipo := Tipo.pikachu, treinador := "Ash", nivel := 3 }
        { id := 2, tipo := Tipo.charizard, treinador := "Red", nivel := 1 } (1 / 2)).winner =
        { id := 1, tipo := Tipo.pikachu, treinador := "Ash", nivel := 3 } ∧
      (pickWinnerWeighted
        { id := 1, tipo := Tipo.pikachu, treinador := "Ash", nivel := 3 }
        { id := 2, tipo := Tipo.charizard, treinador := "Red", nivel := 1 } (1 / 2)).loser =
        { id := 2, tipo := Tipo.charizard, treinador := "Red", nivel := 1 } ∨
      (pickWinnerWeighted
        { id := 1, tipo := Tipo.pikachu, treinador := "Ash", nivel := 3 }
        { id := 2, tipo := Tipo.charizard, treinador := "Red", nivel := 1 } (1 / 2)).winner =
        { id := 2, tipo := Tipo.charizard, treinador := "Red", nivel := 1 } ∧
      (pickWinnerWeighted
        { id := 1, tipo := Tipo.pikachu, treinador := "Ash", nivel := 3 }
        { id := 2, tipo := Tipo.charizard, treinador := "Red", nivel := 1 } (1 / 2)).loser =
        { id := 1, tipo := Tipo.pikachu, treinador := "Ash", nivel := 3 }) ∧
    (({ id := 1, tipo := Tipo.pikachu, treinador := "Ash", nivel := 3 } : PokemonModel).nivel =
        ({ id := 2, tipo := Tipo.charizard, treinador := "Red", nivel := 1 } : PokemonModel).nivel →
      0 < ({ id := 1, tipo := Tipo.pikachu, treinador := "Ash", nivel := 3 } : PokemonModel).nivel →
      pokemonAProbability
        { id := 1, tipo := Tipo.pikachu, treinador := "Ash", nivel := 3 }
        { id := 2, tipo := Tipo.charizard, treinador := "Red", nivel := 1 } = 1 / 2)) :=
  ⟨by norm_num, by norm_num,
    pickWinnerWeighted_weighted_choice _ _ _ (by norm_num) (by norm_num)⟩

/-- C9: the winner selection function is total and, whenever the level of A
is 0, B is returned as winner regardless of the draw.  In JS a zero total
level makes the probability NaN and `r < NaN` is false; in the rational
embedding the probability is 0 and `r < 0` is false for `0 ≤ r`, so both
semantics deterministically return B, including when both levels are 0. -/
theorem pickWinnerWeighted_levelZero_b_wins (A B : PokemonModel) (r : ℚ)
    (h0 : 0 ≤ r) (hA : A.nivel = 0) :
    pickWinnerWeighted A B r = { winner := B, loser := A } := by
  have hp : pokemonAProbability A B = 0 := by
    simp [pokemonAProbability, hA]
  simp [pickWinnerWeighted, hp, not_lt.mpr h0]

/-- Witness for C9: both levels 0 and r = 1/3. -/
theorem pickWinnerWeighted_levelZero_b_wins_witness :
    (0 : ℚ) ≤ 1 / 3 ∧
    ({ id := 1, tipo := Tipo.pikachu, treinador := "Ash", nivel := 0 } : PokemonModel).nivel = 0 ∧
    pickWinnerWeighted
      { id := 1, tipo := Tipo.pikachu, treinador := "Ash", nivel := 0 }
      { id := 2, tipo := Tipo.mewtwo, treinador := "Red", nivel := 0 } (1 / 3) =
      { winner := { id := 2, tipo := Tipo.mewtwo, treinador := "Red", nivel := 0 },
        loser := { id := 1, tipo := Tipo.pikachu, treinador := "Ash", nivel := 0 } } :=
  ⟨by norm_num, rfl,
    pickWinnerWeighted_levelZero_b_wins _ _ _ (by norm_num) rfl⟩

/-- `loadById` of PgPokemonRepository: select the first row whose id matches
(`select ... where id = ... limit 1`), or none. -/
def loadById (repo : List PokemonModel) (pokemonId : Int) : Option PokemonModel :=
  repo.find? (fun p => p.id == pokemonId)

/-- `updateNivel` of PgPokemonRepository: `update pokemons set nivel = ...
where id = ...` writes only the nivel column of the rows matching the id. -/
def updateNivel (repo : List PokemonModel) (pokemonId nivel : Int) :
    List PokemonModel :=
  repo.map (fun p => if p.id == pokemonId then { p with nivel := nivel } else p)

/-- `deleteById` of PgPokemonRepository: `delete from pokemons where id = ...`. -/
def deleteById (repo : List PokemonModel) (pokemonId : Int) : List PokemonModel :=
  repo.filter (fun p => !(p.id == pokemonId))

/-- `create` of PgPokemonRepository: inserts a new row whose nivel is the
database default 1 (schema: `nivel integer not null default 1`). -/
def createPokemon (repo : List PokemonModel) (newId : Int) (tipo : Tipo)
    (treinador : String) : List PokemonModel :=
  repo ++ [{ id := newId, tipo := tipo, treinador := treinador, nivel := 1 }]

/-- One repository write call issued by the battle use case. -/
inductive WriteOp
  | updateNivel (pokemonId nivel : Int)
  | deleteById (pokemonId : Int)
deriving DecidableEq, Repr

/-- Applying one recorded write call to the stored rows. -/
def applyWrite (repo : List PokemonModel) : WriteOp → List PokemonModel
  | WriteOp.updateNivel pokemonId nivel => updateNivel repo pokemonId nivel
  | WriteOp.deleteById pokemonId => deleteById repo pokemonId

/-- Applying a trace of write calls in order. -/
def applyWrites (repo : List PokemonModel) (ops : List WriteOp) :
    List PokemonModel :=
  ops.foldl applyWrite repo

/-- Output of the battle use case: `{ vencedor, perdedor }`. -/
structure BattleOutput where
  vencedor : PokemonModel
  perdedor : PokemonModel
deriving DecidableEq, Repr

/-- `setupBattlePokemon` (battle use case).  Loads both pokemons, throws
"Pokemon not found" when either load misses, then throws
"Cannot battle the same pokemon" when the two ids are equal, then picks the
winner, updates the winner level, deletes the loser at level 0 or updates it
otherwise, and returns both records with the new levels.  The repository
write calls are returned as an ordered trace alongside the outcome. -/
def setupBattlePokemon (repo : List PokemonModel) (pokemonAId pokemonBId : Int)
    (randomValue : ℚ) : Except String BattleOutput × List WriteOp :=
  match loadById repo pokemonAId, loadById repo pokemonBId with
  | some pokemonA, some pokemonB =>
    if pokemonAId = pokemonBId then
      (Except.error "Cannot battle the same pokemon", [])
    else
      let result := pickWinnerWeighted pokemonA pokemonB randomValue
      let newWinnerLevel := result.winner.nivel + 1
      let newLoserLevel := result.loser.nivel - 1
      (Except.ok
        { vencedor := { result.winner with nivel := newWinnerLevel },
          perdedor := { result.loser with nivel := newLoserLevel } },
        WriteOp.updateNivel result.winner.id newWinnerLevel ::
          (if newLoserLevel = 0 then [WriteOp.deleteById result.loser.id]
            else [WriteOp.updateNivel result.loser.id newLoserLevel]))
  | _, _ => (Except.error "Pokemon not found", [])

/-- Helper: the exact outcome and write trace of a battle whose preconditions
pass, in terms of the winner selection result. -/
theorem setupBattlePokemon_success_eq (repo : List PokemonModel)
    (pokemonAId pokemonBId : Int) (r : ℚ) (A B : PokemonModel)
    (hA : loadById repo pokemonAId = some A) (hB : loadById repo pokemonBId = some B)
    (hne : pokemonAId ≠ pokemonBId) :
    setupBattlePokemon repo pokemonAId pokemonBId r =
      (Except.ok
        { vencedor := { (pickWinnerWeighted A B r).winner with
            nivel := (pickWinnerWeighted A B r).winner.nivel + 1 },
          perdedor := { (pickWinnerWeighted A B r).loser with
            nivel := (pickWinnerWeighted A B r).loser.nivel - 1 } },
        WriteOp.updateNivel (pickWinnerWeighted A B r).winner.id
            ((pickWinnerWeighted A B r).winner.nivel + 1) ::
          (if (pickWinnerWeighted A B r).loser.nivel - 1 = 0 then
            [WriteOp.deleteById (pickWinnerWeighted A B r).loser.id]
          else
            [WriteOp.updateNivel (pickWinnerWeighted A B r).loser.id
              ((pickWinnerWeighted A B r).loser.nivel - 1)])) := by
  unfold setupBattlePokemon
  rw [hA, hB]
  simp [hne]

/-- C3: when both ids resolve and differ, the returned winner level is the
loaded winner level plus 1, the returned loser level is the loaded loser
level minus 1, and the first persisted write is `updateNivel` of the new
winner level on the winner id. -/
theorem setupBattlePokemon_level_deltas (repo : List PokemonModel)
    (pokemonAId pokemonBId : Int) (r : ℚ) (A B : PokemonModel)
    (hA : loadById repo pokemonAId = some A) (hB : loadById repo pokemonBId = some B)
    (hne : pokemonAId ≠ pokemonBId) :
    (setupBattlePokemon repo pokemonAId pokemonBId r).1 =
      Except.ok
        { vencedor := { (pickWinnerWeighted A B r).winner with
            nivel := (pickWinnerWeighted A B r).winner.nivel + 1 },
          perdedor := { (pickWinnerWeighted A B r).loser with
            nivel := (pickWinnerWeighted A B r).loser.nivel - 1 } } ∧
    WriteOp.updateNivel (pickWinnerWeighted A B r).winner.id
        ((pickWinnerWeighted A B r).winner.nivel + 1) ∈
      (setupBattlePokemon repo pokemonAId pokemonBId r).2 ∧
    ((setupBattlePokemon repo pokemonAId pokemonBId r).2).head? =
      some (WriteOp.updateNivel (pickWinnerWeighted A B r).winner.id
        ((pickWinnerWeighted A B r).winner.nivel + 1)) := by
  rw [setupBattlePokemon_success_eq repo pokemonAId pokemonBId r A B hA hB hne]
  refine ⟨rfl, List.mem_cons_self _ _, rfl⟩

/-- Witness for C3: repo with levels 5 and 3, ids 1 and 2, r = 0 (A wins). -/
theorem setupBattlePokemon_level_deltas_witness :
    loadById
        [{ id := 1, tipo := Tipo.pikachu, treinador := "Ash", nivel := 5 },
         { id := 2, tipo := Tipo.mewtwo, treinador := "Red", nivel := 3 }] 1 =
      some { id := 1, tipo := Tipo.pikachu, treinador := "Ash", nivel := 5 } ∧
    loadById
        [{ id := 1, tipo := Tipo.pikachu, treinador := "Ash", nivel := 5 },
         { id := 2, tipo := Tipo.mewtwo, treinador := "Red", nivel := 3 }] 2 =
      some { id := 2, tipo := Tipo.mewtwo, treinador := "Red", nivel := 3 } ∧
    (1 : Int) ≠ 2 ∧
    ((setupBattlePokemon
        [{ id := 1, tipo := Tipo.pikachu, treinador := "Ash", nivel := 5 },
         { id := 2, tipo := Tipo.mewtwo, treinador := "Red", nivel := 3 }] 1 2 0).1 =
      Except.ok
        { vencedor := { (pickWinnerWeighted
            { id := 1, tipo := Tipo.pikachu, treinador := "Ash", nivel := 5 }
            { id := 2, tipo := Tipo.mewtwo, treinador := "Red", nivel := 3 } 0).winner with
            nivel := (pickWinnerWeighted
              { id := 1, tipo := Tipo.pikachu, treinador := "Ash", nivel := 5 }
              { id := 2, tipo := Tipo.mewtwo, treinador := "Red", nivel := 3 } 0).winner.nivel + 1 },
          perdedor := { (pickWinnerWeighted
            { id := 1, tipo := Tipo.pikachu, treinador := "Ash", nivel := 5 }
            { id := 2, tipo := Tipo.mewtwo, treinador := "Red", nivel := 3 } 0).loser with
            nivel := (pickWinnerWeighted
              { id := 1, tipo := Tipo.pikachu, treinador := "Ash", nivel := 5 }
              { id := 2, tipo := Tipo.mewtwo, treinador := "Red", nivel := 3 } 0).loser.nivel - 1 } } ∧
      WriteOp.updateNivel (pickWinnerWeighted
          { id := 1, tipo := Tipo.pikachu, treinador := "Ash", nivel := 5 }
          { id := 2, tipo := Tipo.mewtwo, treinador := "Red", nivel := 3 } 0).winner.id
          ((pickWinnerWeighted
            { id := 1, tipo := Tipo.pikachu, treinador := "Ash", nivel := 5 }
            { id := 2, tipo := Tipo.mewtwo, treinador := "Red", nivel := 3 } 0).winner.nivel + 1) ∈
        (setupBattlePokemon
          [{ id := 1, tipo := Tipo.pikachu, treinador := "Ash", nivel := 5 },
           { id := 2, tipo := Tipo.mewtwo, treinador := "Red", nivel := 3 }] 1 2 0).2 ∧
      ((setupBattlePokemon
          [{ id := 1, tipo := Tipo.pikachu, treinador := "Ash", nivel := 5 },
           { id := 2, tipo := Tipo.mewtwo, treinador := "Red", nivel := 3 }] 1 2 0).2).head? =
        some (WriteOp.updateNivel (pickWinnerWeighted
            { id := 1, tipo := Tipo.pikachu, treinador := "Ash", nivel := 5 }
            { id := 2, tipo := Tipo.mewtwo, treinador := "Red", nivel := 3 } 0).winner.id
          ((pickWinnerWeighted
            { id := 1, tipo := Tipo.pikachu, treinador := "Ash", nivel := 5 }
            { id := 2, tipo := Tipo.mewtwo, treinador := "Red", nivel := 3 } 0).winner.nivel + 1))) :=
  ⟨rfl, rfl, by decide,
    setupBattlePokemon_level_deltas _ 1 2 0 _ _ rfl rfl (by decide)⟩

/-- Fixture rows used by concrete instantiations below. -/
def pikachuLv1 : PokemonModel :=
  { id := 1, tipo := Tipo.pikachu, treinador := "Ash", nivel := 1 }

/-- Fixture row with level 1 and a different id. -/
def charizardLv1 : PokemonModel :=
  { id := 2, tipo := Tipo.charizard, treinador := "Red", nivel := 1 }

/-- Fixture row with level 4. -/
def mewtwoLv4 : PokemonModel :=
  { id := 3, tipo := Tipo.mewtwo, treinador := "Giovanni", nivel := 4 }

/-- C2: in a successful battle, when the computed loser level is exactly 0
the loser row is deleted and no level update is persisted for the loser;
when it is nonzero the loser row gets exactly one `updateNivel` with the new
level and no delete; in both cases the returned result reports the loser at
the computed level (including level 0 in the deletion case). -/
theorem setupBattlePokemon_loser_threshold (repo : List PokemonModel)
    (pokemonAId pokemonBId : Int) (r : ℚ) (A B : PokemonModel)
    (hA : loadById repo pokemonAId = some A) (hB : loadById repo pokemonBId = some B)
    (hne : pokemonAId ≠ pokemonBId) :
    ((pickWinnerWeighted A B r).loser.nivel - 1 = 0 →
      (setupBattlePokemon repo pokemonAId pokemonBId r).2 =
        [WriteOp.updateNivel (pickWinnerWeighted A B r).winner.id
            ((pickWinnerWeighted A B r).winner.nivel + 1),
          WriteOp.deleteById (pickWinnerWeighted A B r).loser.id]) ∧
    ((pickWinnerWeighted A B r).loser.nivel - 1 ≠ 0 →
      (setupBattlePokemon repo pokemonAId pokemonBId r).2 =
        [WriteOp.updateNivel (pickWinnerWeighted A B r).winner.id
            ((pickWinnerWeighted A B r).winner.nivel + 1),
          WriteOp.updateNivel (pickWinnerWeighted A B r).loser.id
            ((pickWinnerWeighted A B r).loser.nivel - 1)]) ∧
    (setupBattlePokemon repo pokemonAId pokemonBId r).1 =
      Except.ok
        { vencedor := { (pickWinnerWeighted A B r).winner with
            nivel := (pickWinnerWeighted A B r).winner.nivel + 1 },
          perdedor := { (pickWinnerWeighted A B r).loser with
            nivel := (pickWinnerWeighted A B r).loser.nivel - 1 } } := by
  rw [setupBattlePokemon_success_eq repo pokemonAId pokemonBId r A B hA hB hne]
  refine ⟨fun h => by simp [h], fun h => by simp [h], rfl⟩

/-- Witness for C2: levels 1 and 1 with r = 0, so the loser reaches level 0
and the delete branch is taken. -/
theorem setupBattlePokemon_loser_threshold_witness :
    loadById [pikachuLv1, charizardLv1] 1 = some pikachuLv1 ∧
    loadById [pikachuLv1, charizardLv1] 2 = some charizardLv1 ∧
    (1 : Int) ≠ 2 ∧
    (((pickWinnerWeighted pikachuLv1 charizardLv1 0).loser.nivel - 1 = 0 →
      (setupBattlePokemon [pikachuLv1, charizardLv1] 1 2 0).2 =
        [WriteOp.updateNivel (pickWinnerWeighted pikachuLv1 charizardLv1 0).winner.id
            ((pickWinnerWeighted pikachuLv1 charizardLv1 0).winner.nivel + 1),
          WriteOp.deleteById (pickWinnerWeighted pikachuLv1 charizardLv1 0).loser.id]) ∧
    ((pickWinnerWeighted pikachuLv1 charizardLv1 0).loser.nivel - 1 ≠ 0 →
      (setupBattlePokemon [pikachuLv1, charizardLv1] 1 2 0).2 =
        [WriteOp.updateNivel (pickWinnerWeighted pikachuLv1 charizardLv1 0).winner.id
            ((pickWinnerWeighted pikachuLv1 charizardLv1 0).winner.nivel + 1),
          WriteOp.updateNivel (pickWinnerWeighted pikachuLv1 charizardLv1 0).loser.id
            ((pickWinnerWeighted pikachuLv1 charizardLv1 0).loser.nivel - 1)]) ∧
    (setupBattlePokemon [pikachuLv1, charizardLv1] 1 2 0).1 =
      Except.ok
        { vencedor := { (pickWinnerWeighted pikachuLv1 charizardLv1 0).winner with
            nivel := (pickWinnerWeighted pikachuLv1 charizardLv1 0).winner.nivel + 1 },
          perdedor := { (pickWinnerWeighted pikachuLv1 charizardLv1 0).loser with
            nivel := (pickWinnerWeighted pikachuLv1 charizardLv1 0).loser.nivel - 1 } }) :=
  ⟨rfl, rfl, by decide,
    setupBattlePokemon_loser_threshold _ 1 2 0 _ _ rfl rfl (by decide)⟩

/-- C6: when either id fails to resolve, the battle use case fails with the
"Pokemon not found" condition and the write trace is empty (no `updateNivel`
and no `deleteById` occur). -/
theorem setupBattlePokemon_not_found (repo : List PokemonModel)
    (pokemonAId pokemonBId : Int) (r : ℚ)
    (h : loadById repo pokemonAId = none ∨ loadById repo pokemonBId = none) :
    setupBattlePokemon repo pokemonAId pokemonBId r =
      (Except.error "Pokemon not found", []) := by
  unfold setupBattlePokemon
  rcases h with h | h
  · rw [h]
  · rw [h]
    cases loadById repo pokemonAId <;> rfl

/-- Witness for C6: id 9 resolves to nothing in a one-row repository. -/
theorem setupBattlePokemon_not_found_witness :
    (loadById [pikachuLv1] 9 = none ∨ loadById [pikachuLv1] 2 = none) ∧
    setupBattlePokemon [pikachuLv1] 9 2 0 =
      (Except.error "Pokemon not found", []) :=
  ⟨Or.inl rfl, setupBattlePokemon_not_found _ 9 2 0 (Or.inl rfl)⟩

/-- Helper: the winner selection result is one of the two orderings of the
inputs. -/
theorem pickWinnerWeighted_cases (A B : PokemonModel) (r : ℚ) :
    pickWinnerWeighted A B r = { winner := A, loser := B } ∨
    pickWinnerWeighted A B r = { winner := B, loser := A } := by
  unfold pickWinnerWeighted
  by_cases h : r < pokemonAProbability A B <;> simp [h]

/-- Helper: a missing load produces the not-found error and an empty trace. -/
theorem setupBattlePokemon_miss_eq (repo : List PokemonModel)
    (pokemonAId pokemonBId : Int) (r : ℚ)
    (h : loadById repo pokemonAId = none ∨ loadById repo pokemonBId = none) :
    setupBattlePokemon repo pokemonAId pokemonBId r =
      (Except.error "Pokemon not found", []) := by
  unfold setupBattlePokemon
  rcases h with h | h
  · rw [h]
  · rw [h]
    cases loadById repo pokemonAId <;> rfl

/-- Helper: equal ids with resolving loads produce the same-pokemon error
and an empty trace. -/
theorem setupBattlePokemon_sameId_eq (repo : List PokemonModel)
    (pokemonAId pokemonBId : Int) (r : ℚ) (A B : PokemonModel)
    (hA : loadById repo pokemonAId = some A) (hB : loadById repo pokemonBId = some B)
    (hEq : pokemonAId = pokemonBId) :
    setupBattlePokemon repo pokemonAId pokemonBId r =
      (Except.error "Cannot battle the same pokemon", []) := by
  unfold setupBattlePokemon
  rw [hA, hB]
  simp [hEq]

/-- Helper: every `updateNivel` call recorded by a battle over a repository
whose rows all have strictly positive levels writes a strictly positive
level. -/
theorem setupBattlePokemon_writes_pos (repo : List PokemonModel)
    (pokemonAId pokemonBId : Int) (r : ℚ)
    (hrepo : ∀ p ∈ repo, 0 < p.nivel) :
    ∀ pid n, WriteOp.updateNivel pid n ∈ (setupBattlePokemon repo pokemonAId pokemonBId r).2 →
      0 < n := by
  intro pid n hmem
  cases hA : loadById repo pokemonAId with
  | none =>
    rw [setupBattlePokemon_miss_eq repo pokemonAId pokemonBId r (Or.inl hA)] at hmem
    simp at hmem
  | some A =>
    cases hB : loadById repo pokemonBId with
    | none =>
      rw [setupBattlePokemon_miss_eq repo pokemonAId pokemonBId r (Or.inr hB)] at hmem
      simp at hmem
    | some B =>
      by_cases hEq : pokemonAId = pokemonBId
      · rw [setupBattlePokemon_sameId_eq repo pokemonAId pokemonBId r A B hA hB hEq] at hmem
        simp at hmem
      · rw [setupBattlePokemon_success_eq repo pokemonAId pokemonBId r A B hA hB hEq] at hmem
        have hApos : 0 < A.nivel := hrepo A (List.mem_of_find?_eq_some hA)
        have hBpos : 0 < B.nivel := hrepo B (List.mem_of_find?_eq_some hB)
        rcases pickWinnerWeighted_cases A B r with hc | hc <;> rw [hc] at hmem <;>
          dsimp at hmem <;> split at hmem <;> simp at hmem <;>
          rcases hmem with ⟨h1, h2⟩ | ⟨h1, h2⟩ <;> omega

/-- Helper: a write trace whose level updates are all strictly positive
preserves strict positivity of every stored level. -/
theorem applyWrites_pos (ops : List WriteOp) (repo : List PokemonModel)
    (hrepo : ∀ p ∈ repo, 0 < p.nivel)
    (hops : ∀ pid n, WriteOp.updateNivel pid n ∈ ops → 0 < n) :
    ∀ p ∈ applyWrites repo ops, 0 < p.nivel := by
  induction ops generalizing repo with
  | nil => exact hrepo
  | cons op rest ih =>
    have hstep : ∀ p ∈ applyWrite repo op, 0 < p.nivel := by
      intro p hp
      cases op with
      | updateNivel pid n =>
        simp only [applyWrite, updateNivel, List.mem_map] at hp
        obtain ⟨q, hq, hqp⟩ := hp
        by_cases hid : q.id == pid
        · rw [if_pos hid] at hqp
          rw [← hqp]
          exact hops pid n (List.mem_cons_self _ _)
        · rw [if_neg hid] at hqp
          rw [← hqp]
          exact hrepo q hq
      | deleteById pid =>
        simp only [applyWrite, deleteById, List.mem_filter] at hp
        exact hrepo p hp.1
    intro p hp
    exact ih (applyWrite repo op)
      hstep
      (fun pid n hmem => hops pid n (List.mem_cons_of_mem _ hmem))
      p hp

/-- C8: creation inserts rows at level 1, and over a repository whose rows
all have strictly positive levels (the states reachable from creation) the
battle use case only ever persists strictly positive levels - the loser is
either deleted or updated to a positive level - so every stored row keeps a
level that is positive, hence never below 0. -/
theorem battle_preserves_level_invariant (repo : List PokemonModel)
    (newId : Int) (tipo : Tipo) (treinador : String)
    (pokemonAId pokemonBId : Int) (r : ℚ)
    (hrepo : ∀ p ∈ repo, 0 < p.nivel) :
    (∀ p ∈ createPokemon repo newId tipo treinador, p ∈ repo ∨ p.nivel = 1) ∧
    (∀ pid n, WriteOp.updateNivel pid n ∈ (setupBattlePokemon repo pokemonAId pokemonBId r).2 →
      0 < n) ∧
    (∀ p ∈ applyWrites repo (setupBattlePokemon repo pokemonAId pokemonBId r).2,
      0 < p.nivel) ∧
    (∀ p ∈ applyWrites repo (setupBattlePokemon repo pokemonAId pokemonBId r).2,
      0 ≤ p.nivel) := by
  have hwr := setupBattlePokemon_writes_pos repo pokemonAId pokemonBId r hrepo
  have hafter := applyWrites_pos (setupBattlePokemon repo pokemonAId pokemonBId r).2 repo hrepo hwr
  refine ⟨?_, hwr, hafter, fun p hp => le_of_lt (hafter p hp)⟩
  intro p hp
  simp only [createPokemon, List.mem_append, List.mem_singleton] at hp
  rcases hp with hp | hp
  · exact Or.inl hp
  · exact Or.inr (by rw [hp])

/-- Witness for C8: a two-row repository with levels 1 and 4, a fresh
creation and the battle of ids 1 and 3 with r = 0. -/
theorem battle_preserves_level_invariant_witness :
    (∀ p ∈ [pikachuLv1, mewtwoLv4], 0 < p.nivel) ∧
    (∀ p ∈ createPokemon [pikachuLv1, mewtwoLv4] 7 Tipo.charizard "Blue",
      p ∈ [pikachuLv1, mewtwoLv4] ∨ p.nivel = 1) ∧
    (∀ pid n, WriteOp.updateNivel pid n ∈ (setupBattlePokemon [pikachuLv1, mewtwoLv4] 1 3 0).2 →
      0 < n) ∧
    (∀ p ∈ applyWrites [pikachuLv1, mewtwoLv4] (setupBattlePokemon [pikachuLv1, mewtwoLv4] 1 3 0).2,
      0 < p.nivel) ∧
    (∀ p ∈ applyWrites [pikachuLv1, mewtwoLv4] (setupBattlePokemon [pikachuLv1, mewtwoLv4] 1 3 0).2,
      0 ≤ p.nivel) :=
  ⟨by decide,
    battle_preserves_level_invariant [pikachuLv1, mewtwoLv4] 7 Tipo.charizard "Blue" 1 3 0
      (by decide)⟩

/-- The id targeted by a recorded write call. -/
def writeTarget : WriteOp → Int
  | WriteOp.updateNivel pokemonId _ => pokemonId
  | WriteOp.deleteById pokemonId => pokemonId

/-- Helper: `updateNivel` leaves every row with a different id unchanged. -/
theorem mem_updateNivel_of_ne (repo : List PokemonModel) (pokemonId nivel : Int)
    (p : PokemonModel) (hp : p ∈ repo) (hne : p.id ≠ pokemonId) :
    p ∈ updateNivel repo pokemonId nivel := by
  unfold updateNivel
  refine List.mem_map.mpr ⟨p, hp, ?_⟩
  simp [hne]

/-- Helper: `deleteById` leaves every row with a different id in place. -/
theorem mem_deleteById_of_ne (repo : List PokemonModel) (pokemonId : Int)
    (p : PokemonModel) (hp : p ∈ repo) (hne : p.id ≠ pokemonId) :
    p ∈ deleteById repo pokemonId := by
  unfold deleteById
  exact List.mem_filter.mpr ⟨hp, by simp [hne]⟩

/-- Helper: every row produced by `updateNivel` is an existing row with at
most the nivel column changed. -/
theorem updateNivel_shape (repo : List PokemonModel) (pokemonId nivel : Int) :
    ∀ p ∈ updateNivel repo pokemonId nivel,
      ∃ q ∈ repo, q.id = p.id ∧ q.tipo = p.tipo ∧ q.treinador = p.treinador := by
  intro p hp
  obtain ⟨q, hq, hqp⟩ := List.mem_map.mp hp
  refine ⟨q, hq, ?_⟩
  by_cases h : (q.id == pokemonId) = true
  · rw [if_pos h] at hqp
    rw [← hqp]
    exact ⟨rfl, rfl, rfl⟩
  · rw [if_neg h] at hqp
    rw [← hqp]
    exact ⟨rfl, rfl, rfl⟩

/-- Helper: `deleteById` only removes rows, it never edits one. -/
theorem deleteById_subset (repo : List PokemonModel) (pokemonId : Int) :
    ∀ p ∈ deleteById repo pokemonId, p ∈ repo :=
  fun _ hp => (List.mem_filter.mp hp).1

/-- Helper: after any write trace, every stored row is an originally stored
row with at most the nivel column changed; no write introduces a row or
edits id, tipo or treinador. -/
theorem applyWrites_shape (ops : List WriteOp) (repo : List PokemonModel) :
    ∀ p ∈ applyWrites repo ops,
      ∃ q ∈ repo, q.id = p.id ∧ q.tipo = p.tipo ∧ q.treinador = p.treinador := by
  induction ops generalizing repo with
  | nil => exact fun p hp => ⟨p, hp, rfl, rfl, rfl⟩
  | cons op rest ih =>
    intro p hp
    obtain ⟨q, hq, h1, h2, h3⟩ := ih (applyWrite repo op) p hp
    cases op with
    | updateNivel pokemonId nivel =>
      obtain ⟨q0, hq0, g1, g2, g3⟩ := updateNivel_shape repo pokemonId nivel q hq
      exact ⟨q0, hq0, g1.trans h1, g2.trans h2, g3.trans h3⟩
    | deleteById pokemonId =>
      exact ⟨q, deleteById_subset repo pokemonId q hq, h1, h2, h3⟩

/-- Helper: a row whose id no write targets survives any write trace
unchanged. -/
theorem applyWrites_untouched (ops : List WriteOp) (repo : List PokemonModel)
    (p : PokemonModel) (hp : p ∈ repo)
    (h : ∀ op ∈ ops, writeTarget op ≠ p.id) : p ∈ applyWrites repo ops := by
  induction ops generalizing repo with
  | nil => exact hp
  | cons op rest ih =>
    refine ih (applyWrite repo op) ?_ (fun o ho => h o (List.mem_cons_of_mem _ ho))
    have hop := h op (List.mem_cons_self _ _)
    cases op with
    | updateNivel pokemonId nivel =>
      exact mem_updateNivel_of_ne repo pokemonId nivel p hp (fun hc => hop (by
        simp [writeTarget, hc]))
    | deleteById pokemonId =>
      exact mem_deleteById_of_ne repo pokemonId p hp (fun hc => hop (by
        simp [writeTarget, hc]))

/-- Helper: every write of a successful battle targets one of the two loaded
combatants. -/
theorem setupBattlePokemon_write_targets (repo : List PokemonModel)
    (pokemonAId pokemonBId : Int) (r : ℚ) (A B : PokemonModel)
    (hA : loadById repo pokemonAId = some A) (hB : loadById repo pokemonBId = some B)
    (hne : pokemonAId ≠ pokemonBId) :
    ∀ op ∈ (setupBattlePokemon repo pokemonAId pokemonBId r).2,
      writeTarget op = A.id ∨ writeTarget op = B.id := by
  rw [setupBattlePokemon_success_eq repo pokemonAId pokemonBId r A B hA hB hne]
  rcases pickWinnerWeighted_cases A B r with hc | hc <;> rw [hc] <;> intro op hop <;>
    dsimp at hop <;> split at hop <;> simp at hop <;>
    rcases hop with hop | hop <;> rw [hop] <;> simp [writeTarget]

/-- C10: a battle mutates only the nivel of the two combatant rows.  Rows
whose id is neither combatant survive unchanged, every row after the battle
is an original row with at most the nivel column changed, and the returned
winner and loser keep the id, tipo and treinador of the loaded records. -/
theorem battle_mutates_only_levels (repo : List PokemonModel)
    (pokemonAId pokemonBId : Int) (r : ℚ) (A B : PokemonModel)
    (hA : loadById repo pokemonAId = some A) (hB : loadById repo pokemonBId = some B)
    (hne : pokemonAId ≠ pokemonBId) :
    (∀ p ∈ repo, p.id ≠ A.id → p.id ≠ B.id →
      p ∈ applyWrites repo (setupBattlePokemon repo pokemonAId pokemonBId r).2) ∧
    (∀ p ∈ applyWrites repo (setupBattlePokemon repo pokemonAId pokemonBId r).2,
      ∃ q ∈ repo, q.id = p.id ∧ q.tipo = p.tipo ∧ q.treinador = p.treinador) ∧
    (∃ out, (setupBattlePokemon repo pokemonAId pokemonBId r).1 = Except.ok out ∧
      out.vencedor.id = (pickWinnerWeighted A B r).winner.id ∧
      out.vencedor.tipo = (pickWinnerWeighted A B r).winner.tipo ∧
      out.vencedor.treinador = (pickWinnerWeighted A B r).winner.treinador ∧
      out.perdedor.id = (pickWinnerWeighted A B r).loser.id ∧
      out.perdedor.tipo = (pickWinnerWeighted A B r).loser.tipo ∧
      out.perdedor.treinador = (pickWinnerWeighted A B r).loser.treinador) := by
  refine ⟨?_, applyWrites_shape _ repo, ?_⟩
  · intro p hp hpa hpb
    refine applyWrites_untouched _ repo p hp ?_
    intro op hop
    rcases setupBattlePokemon_write_targets repo pokemonAId pokemonBId r A B hA hB hne
      op hop with h | h
    · rw [h]; exact fun hc => hpa hc.symm
    · rw [h]; exact fun hc => hpb hc.symm
  · refine
      ⟨{ vencedor := { (pickWinnerWeighted A B r).winner with
           nivel := (pickWinnerWeighted A B r).winner.nivel + 1 },
         perdedor := { (pickWinnerWeighted A B r).loser with
           nivel := (pickWinnerWeighted A B r).loser.nivel - 1 } },
        ?_, rfl, rfl, rfl, rfl, rfl, rfl⟩
    rw [setupBattlePokemon_success_eq repo pokemonAId pokemonBId r A B hA hB hne]

/-- Witness for C10: repository with rows 1 and 3 plus a bystander row,
battling ids 1 and 3 with r = 0. -/
theorem battle_mutates_only_levels_witness :
    loadById [pikachuLv1, charizardLv1, mewtwoLv4] 1 = some pikachuLv1 ∧
    loadById [pikachuLv1, charizardLv1, mewtwoLv4] 3 = some mewtwoLv4 ∧
    (1 : Int) ≠ 3 ∧
    ((∀ p ∈ [pikachuLv1, charizardLv1, mewtwoLv4], p.id ≠ pikachuLv1.id → p.id ≠ mewtwoLv4.id →
      p ∈ applyWrites [pikachuLv1, charizardLv1, mewtwoLv4]
        (setupBattlePokemon [pikachuLv1, charizardLv1, mewtwoLv4] 1 3 0).2) ∧
    (∀ p ∈ applyWrites [pikachuLv1, charizardLv1, mewtwoLv4]
        (setupBattlePokemon [pikachuLv1, charizardLv1, mewtwoLv4] 1 3 0).2,
      ∃ q ∈ [pikachuLv1, charizardLv1, mewtwoLv4],
        q.id = p.id ∧ q.tipo = p.tipo ∧ q.treinador = p.treinador) ∧
    (∃ out, (setupBattlePokemon [pikachuLv1, charizardLv1, mewtwoLv4] 1 3 0).1 =
        Except.ok out ∧
      out.vencedor.id = (pickWinnerWeighted pikachuLv1 mewtwoLv4 0).winner.id ∧
      out.vencedor.tipo = (pickWinnerWeighted pikachuLv1 mewtwoLv4 0).winner.tipo ∧
      out.vencedor.treinador = (pickWinnerWeighted pikachuLv1 mewtwoLv4 0).winner.treinador ∧
      out.perdedor.id = (pickWinnerWeighted pikachuLv1 mewtwoLv4 0).loser.id ∧
      out.perdedor.tipo = (pickWinnerWeighted pikachuLv1 mewtwoLv4 0).loser.tipo ∧
      out.perdedor.treinador = (pickWinnerWeighted pikachuLv1 mewtwoLv4 0).loser.treinador)) :=
  ⟨rfl, rfl, by decide,
    battle_mutates_only_levels [pikachuLv1, charizardLv1, mewtwoLv4] 1 3 0
      pikachuLv1 mewtwoLv4 rfl rfl (by decide)⟩

/-- Payload of an HTTP response produced by the battle controller. -/
inductive HttpData
  | battleData (output : BattleOutput)
  | errorMessage (msg : String)
deriving DecidableEq, Repr

/-- An HTTP response: status code plus payload. -/
structure HttpResponse where
  statusCode : Nat
  data : HttpData
deriving DecidableEq, Repr

/-- Modelled from the spec: the `ok` helper of src/application/helpers is
not under src (only its callers and tests are); per the controller tests it
returns status 200 with the given data. -/
def ok (output : BattleOutput) : HttpResponse :=
  { statusCode := 200, data := HttpData.battleData output }

/-- Modelled from the spec: the `badRequest` helper of
src/application/helpers is not under src; per the controller tests it
returns status 400 with the error. -/
def badRequest (msg : String) : HttpResponse :=
  { statusCode := 400, data := HttpData.errorMessage msg }

/-- Modelled from the spec: the `notFound` helper of src/application/helpers
is not under src; per the controller tests it returns status 404 with the
error. -/
def notFound (msg : String) : HttpResponse :=
  { statusCode := 404, data := HttpData.errorMessage msg }

/-- `BattlePokemonController.perform`: runs the battle use case; the
"Pokemon not found" error becomes a 404 response, the
"Cannot battle the same pokemon" error becomes a 400 response, any other
error is re-thrown.  The write trace of the use case is carried through. -/
def battlePokemonControllerPerform (repo : List PokemonModel)
    (pokemonAId pokemonBId : Int) (randomValue : ℚ) :
    Except String HttpResponse × List WriteOp :=
  match setupBattlePokemon repo pokemonAId pokemonBId randomValue with
  | (Except.ok result, writes) => (Except.ok (ok result), writes)
  | (Except.error msg, writes) =>
    if msg = "Pokemon not found" then (Except.ok (notFound msg), writes)
    else if msg = "Cannot battle the same pokemon" then
      (Except.ok (badRequest msg), writes)
    else (Except.error msg, writes)

/-- Modelled from the spec: the `RequiredNumber` validator of
src/application/validation is not under src; it rejects only NaN inputs,
and an already-parsed integer id is never NaN, so it yields no error here. -/
def requiredNumber (_value : Int) (_fieldName : String) : Option String :=
  none

/-- `BattlePokemonController.buildValidators`: two RequiredNumber checks
plus, when the two parsed ids are equal (never NaN for integer inputs), a
validator failing with "Cannot battle the same pokemon". -/
def buildValidators (pokemonAId pokemonBId : Int) : List (Option String) :=
  [requiredNumber pokemonAId "pokemonAId", requiredNumber pokemonBId "pokemonBId"] ++
    (if pokemonAId = pokemonBId then [some "Cannot battle the same pokemon"] else [])

/-- Modelled from the spec: the abstract base `Controller.validate` of
src/application/controllers is not under src; it returns the first error
produced by the validators, if any. -/
def firstValidationError : List (Option String) → Option String
  | [] => none
  | some msg :: _ => some msg
  | none :: rest => firstValidationError rest

/-- Modelled from the spec: the abstract base `Controller.handle` of
src/application/controllers is not under src (only its tests and callers
are); per the spec and the controller tests it runs the validators first and
answers 400 with the first validation error without invoking perform,
otherwise it delegates to perform. -/
def battlePokemonControllerHandle (repo : List PokemonModel)
    (pokemonAId pokemonBId : Int) (randomValue : ℚ) :
    Except String HttpResponse × List WriteOp :=
  match firstValidationError (buildValidators pokemonAId pokemonBId) with
  | some msg => (Except.ok (badRequest msg), [])
  | none => battlePokemonControllerPerform repo pokemonAId pokemonBId randomValue

/-- C5: invoking the battle operation with two equal ids always produces the
InvalidOperation outcome "Cannot battle the same pokemon" (a 400 response
from the same-id validator) with an empty write trace - no updateNivel and
no deleteById - for every repository state, in particular also when the
repeated id resolves to no record. -/
theorem battle_sameId_rejected (repo : List PokemonModel) (pokemonId : Int) (r : ℚ) :
    battlePokemonControllerHandle repo pokemonId pokemonId r =
      (Except.ok (badRequest "Cannot battle the same pokemon"), []) := by
  unfold battlePokemonControllerHandle buildValidators requiredNumber
  simp [firstValidationError]

/-- The `DbTransaction` contract of src/application/contracts: the four
transaction-lifecycle operations, modelled as state transformers over an
abstract state. -/
structure DbTransaction (σ : Type) where
  openTransaction : σ → σ
  commit : σ → σ
  rollback : σ → σ
  closeTransaction : σ → σ

/-- `DbTransactionController.perform`: opens the transaction, invokes the
decorated operation, commits on normal return and re-raises the same error
after a rollback, and closes the transaction in every case (the `finally`
block). -/
def dbTransactionControllerPerform {σ ε α : Type} (db : DbTransaction σ)
    (decoratee : σ → Except ε α × σ) (s : σ) : Except ε α × σ :=
  match decoratee (db.openTransaction s) with
  | (Except.ok response, s2) => (Except.ok response, db.closeTransaction (db.commit s2))
  | (Except.error e, s2) => (Except.error e, db.closeTransaction (db.rollback s2))

/-- Observable events of one decorated call, used to check the order of the
transaction-lifecycle calls around the decorated operation. -/
inductive TxEvent
  | openTransaction
  | invoke
  | commit
  | rollback
  | closeTransaction
deriving DecidableEq, Repr

/-- A transaction manager that records each lifecycle call. -/
def loggingDb : DbTransaction (List TxEvent) :=
  { openTransaction := fun s => s ++ [TxEvent.openTransaction]
    commit := fun s => s ++ [TxEvent.commit]
    rollback := fun s => s ++ [TxEvent.rollback]
    closeTransaction := fun s => s ++ [TxEvent.closeTransaction] }

/-- C4: for every wrapped operation outcome, the decorator opens the
transaction before invoking the operation, commits exactly when the
operation returns, rolls back exactly when it throws and re-raises the very
same error, and closes the transaction last in every case. -/
theorem dbTransactionController_protocol {ε α : Type} (f : Except ε α)
    (s : List TxEvent) :
    dbTransactionControllerPerform loggingDb (fun t => (f, t ++ [TxEvent.invoke])) s =
      match f with
      | Except.ok a => (Except.ok a,
          s ++ [TxEvent.openTransaction, TxEvent.invoke, TxEvent.commit,
            TxEvent.closeTransaction])
      | Except.error e => (Except.error e,
          s ++ [TxEvent.openTransaction, TxEvent.invoke, TxEvent.rollback,
            TxEvent.closeTransaction]) := by
  cases f <;> simp [dbTransactionControllerPerform, loggingDb]

/-- The production composition from the battle controller factory: the
transaction decorator wrapping the battle controller, with the lifecycle
calls logged. -/
def battleOperation (repo : List PokemonModel) (pokemonAId pokemonBId : Int)
    (randomValue : ℚ) : Except String HttpResponse × List TxEvent :=
  dbTransactionControllerPerform loggingDb
    (fun s => ((battlePokemonControllerPerform repo pokemonAId pokemonBId randomValue).1,
      s ++ [TxEvent.invoke])) []

/-- C7 counterexample: battling ids 1 and 2 over an empty repository is a
NotFound failure path, yet the composed operation commits and never rolls
back - the battle controller catches the error and returns a 404 response,
so the decorator sees a normal return. -/
theorem battleOperation_notFound_commits :
    (battleOperation [] 1 2 (1 / 2)).1 = Except.ok (notFound "Pokemon not found") ∧
    (battleOperation [] 1 2 (1 / 2)).2 =
      [TxEvent.openTransaction, TxEvent.invoke, TxEvent.commit, TxEvent.closeTransaction] ∧
    TxEvent.rollback ∉ (battleOperation [] 1 2 (1 / 2)).2 := by
  refine ⟨rfl, rfl, by decide⟩

/-- Helper: on the NotFound and InvalidOperation precondition failures the
battle controller perform returns a 400 or 404 response without throwing and
with an empty write trace. -/
theorem battlePokemonControllerPerform_failure (repo : List PokemonModel)
    (pokemonAId pokemonBId : Int) (r : ℚ)
    (hfail : pokemonAId = pokemonBId ∨ loadById repo pokemonAId = none ∨
      loadById repo pokemonBId = none) :
    battlePokemonControllerPerform repo pokemonAId pokemonBId r =
        (Except.ok (notFound "Pokemon not found"), []) ∨
    battlePokemonControllerPerform repo pokemonAId pokemonBId r =
        (Except.ok (badRequest "Cannot battle the same pokemon"), []) := by
  cases hA : loadById repo pokemonAId with
  | none =>
    left
    unfold battlePokemonControllerPerform
    rw [setupBattlePokemon_miss_eq repo pokemonAId pokemonBId r (Or.inl hA)]
    rfl
  | some A =>
    cases hB : loadById repo pokemonBId with
    | none =>
      left
      unfold battlePokemonControllerPerform
      rw [setupBattlePokemon_miss_eq repo pokemonAId pokemonBId r (Or.inr hB)]
      rfl
    | some B =>
      have hEq : pokemonAId = pokemonBId := by
        rcases hfail with h | h | h
        · exact h
        · exact absurd hA (h ▸ by simp)
        · exact absurd hB (h ▸ by simp)
      right
      unfold battlePokemonControllerPerform
      rw [setupBattlePokemon_sameId_eq repo pokemonAId pokemonBId r A B hA hB hEq]
      rfl

/-- C7 amended: rollback happens exactly for errors thrown through the
wrapped controller (infrastructure failures it does not catch), with the
same error re-raised and no commit; the NotFound and InvalidOperation
failures are caught inside the battle controller and surfaced as 404 and
400 responses, so on those paths the decorator commits - a transaction in
which no repository write was performed. -/
theorem battleOperation_failure_paths (repo : List PokemonModel)
    (pokemonAId pokemonBId : Int) (r : ℚ)
    (hfail : pokemonAId = pokemonBId ∨ loadById repo pokemonAId = none ∨
      loadById repo pokemonBId = none) :
    (∀ (e : String) (s : List TxEvent),
      dbTransactionControllerPerform loggingDb
          (fun t => ((Except.error e : Except String HttpResponse),
            t ++ [TxEvent.invoke])) s =
        (Except.error e,
          s ++ [TxEvent.openTransaction, TxEvent.invoke, TxEvent.rollback,
            TxEvent.closeTransaction])) ∧
    (battlePokemonControllerPerform repo pokemonAId pokemonBId r).2 = [] ∧
    (∃ resp, (battlePokemonControllerPerform repo pokemonAId pokemonBId r).1 =
        Except.ok resp ∧ (resp.statusCode = 404 ∨ resp.statusCode = 400)) ∧
    (battleOperation repo pokemonAId pokemonBId r).2 =
      [TxEvent.openTransaction, TxEvent.invoke, TxEvent.commit,
        TxEvent.closeTransaction] := by
  have hperf := battlePokemonControllerPerform_failure repo pokemonAId pokemonBId r hfail
  refine ⟨fun e s => by simp [dbTransactionControllerPerform, loggingDb], ?_, ?_, ?_⟩
  · rcases hperf with h | h <;> rw [h]
  · rcases hperf with h | h <;> rw [h]
    · exact ⟨notFound "Pokemon not found", rfl, Or.inl rfl⟩
    · exact ⟨badRequest "Cannot battle the same pokemon", rfl, Or.inr rfl⟩
  · rcases hperf with h | h <;>
      simp [battleOperation, h, dbTransactionControllerPerform, loggingDb]

/-- Witness for the amended C7 at the empty repository with ids 1 and 2. -/
theorem battleOperation_failure_paths_witness :
    ((1 : Int) = 2 ∨ loadById ([] : List PokemonModel) 1 = none ∨
      loadById ([] : List PokemonModel) 2 = none) ∧
    ((∀ (e : String) (s : List TxEvent),
      dbTransactionControllerPerform loggingDb
          (fun t => ((Except.error e : Except String HttpResponse),
            t ++ [TxEvent.invoke])) s =
        (Except.error e,
          s ++ [TxEvent.openTransaction, TxEvent.invoke, TxEvent.rollback,
            TxEvent.closeTransaction])) ∧
    (battlePokemonControllerPerform [] 1 2 (1 / 2)).2 = [] ∧
    (∃ resp, (battlePokemonControllerPerform [] 1 2 (1 / 2)).1 =
        Except.ok resp ∧ (resp.statusCode = 404 ∨ resp.statusCode = 400)) ∧
    (battleOperation [] 1 2 (1 / 2)).2 =
      [TxEvent.openTransaction, TxEvent.invoke, TxEvent.commit,
        TxEvent.closeTransaction]) :=
  ⟨Or.inr (Or.inl rfl),
    battleOperation_failure_paths [] 1 2 (1 / 2) (Or.inr (Or.inl rfl))⟩
